import Mathlib

/-!
Shallow embedding of the two CNPJ batch-enrichment scripts
(`cnpj_request.py`, the "v1" variant, and `cnpj_requestv2.py`, the "v2"
variant).  Python strings become Lean `String`s, dict literals become
ordered association lists `List (String × String)` (Python dicts preserve
insertion order), the JSON payload becomes a structure of optional fields
(a missing key is `none`), and the HTTP world seen by the retry loop is a
function from call index to simulated response.  Time is modelled by
recording the sequence of `time.sleep` durations the client would perform.
-/

/-- Constant MAX_API_RETRIES, 5 in both scripts. -/
def MAX_API_RETRIES : Nat := 5

/-- Python `str.strip()`: drop leading and trailing whitespace. -/
def pyStrip (s : String) : String :=
  ⟨((s.data.dropWhile Char.isWhitespace).reverse.dropWhile Char.isWhitespace).reverse⟩

/-- Python `re.sub(r'\D', '', s)`: keep only digit characters, in order. -/
def stripNonDigits (s : String) : String :=
  ⟨s.data.filter Char.isDigit⟩

/-- Python `s.zfill(w)` for an unsigned string: left-pad with `'0'` to width
`w` (no truncation when `s` is already longer). -/
def zfill (s : String) (w : Nat) : String :=
  ⟨List.replicate (w - s.data.length) '0' ++ s.data⟩

/-- Function load_and_clean_cnpjs of `cnpj_request.py` (v1), over the list of raw
lines of the input file: for each line, strip it; if the stripped line is
non-empty, remove non-digits and zero-pad to 14. -/
def load_and_clean_cnpjs (lines : List String) : List String :=
  lines.filterMap (fun line_content =>
    let clean_cnpj_line := pyStrip line_content
    if clean_cnpj_line = "" then none
    else some (zfill (stripNonDigits clean_cnpj_line) 14))

/-- Function load_and_clean_cnpjs of `cnpj_requestv2.py` (v2): for each line,
strip, remove non-digits; only if the digit string is non-empty, zero-pad
to 14. -/
def load_and_clean_cnpjsV2 (lines : List String) : List String :=
  lines.filterMap (fun line =>
    let num := stripNonDigits (pyStrip line)
    if num = "" then none else some (zfill num 14))

/-- One entry of the payload's `qsa` list: a partner with optional `nome`
and `qual` keys. -/
structure Partner where
  nome : Option String
  qual : Option String
deriving DecidableEq, Repr

/-- The JSON payload returned by the ReceitaWS API, restricted to the keys
the two scripts read.  A missing key is `none`. -/
structure ApiData where
  status : Option String := none
  message : Option String := none
  nome : Option String := none
  situacao : Option String := none
  municipio : Option String := none
  uf : Option String := none
  telefone : Option String := none
  qsa : Option (List Partner) := none
deriving DecidableEq, Repr

/-- Python dict falsiness for the modelled payload: a dict with no keys. -/
def ApiData.isEmptyDict (a : ApiData) : Bool :=
  a.status.isNone && a.message.isNone && a.nome.isNone && a.situacao.isNone &&
    a.municipio.isNone && a.uf.isNone && a.telefone.isNone && a.qsa.isNone

/-- Python `not api_data` for `api_data : Optional[Dict]`: true when the
payload is `None` or the empty dict. -/
def apiFalsy : Option ApiData → Bool
  | none => true
  | some a => a.isEmptyDict

/-- The guard `not api_data or api_data.get('status') == 'ERROR'` shared by
both `process_api_response` variants. -/
def apiInvalid (api_data : Option ApiData) : Bool :=
  apiFalsy api_data ||
    (match api_data with
     | none => false
     | some a => a.status == some "ERROR")

/-- An output record: an ordered association list modelling a Python dict. -/
abbrev Record := List (String × String)

/-- The record built for one partner inside v1 `process_api_response`:
`nome` and `qual` are read with default `''`, stripped, and each replaced
by `'N/A'` when empty. -/
def qsaRecordV1 (cnpj : String) (partner_info : Partner) : Record :=
  let partner_name := pyStrip (partner_info.nome.getD "")
  let partner_qualification := pyStrip (partner_info.qual.getD "")
  [("cnpj", cnpj),
   ("nome_qsa", if partner_name = "" then "N/A" else partner_name),
   ("qualificacao_qsa",
     if partner_qualification = "" then "N/A" else partner_qualification)]

/-- Function process_api_response of `cnpj_request.py` (v1). -/
def process_api_response (cnpj : String) (api_data : Option ApiData) :
    List Record :=
  if apiInvalid api_data then
    [[("cnpj", cnpj), ("nome_qsa", "N/A"), ("qualificacao_qsa", "N/A")]]
  else
    let a := api_data.getD {}
    let qsa_list_from_api := a.qsa.getD []
    if qsa_list_from_api ≠ [] then
      qsa_list_from_api.map (qsaRecordV1 cnpj)
    else
      [[("cnpj", cnpj), ("nome_qsa", "N/A"), ("qualificacao_qsa", "N/A")]]

/-- The record built for one partner inside v2 `process_api_response`:
`socio.get('nome','').strip() or 'N/A'`. -/
def qsaRecordV2 (cnpj : String) (socio : Partner) : Record :=
  let nome := pyStrip (socio.nome.getD "")
  [("cnpj", cnpj), ("nome_qsa", if nome = "" then "N/A" else nome)]

/-- Function process_api_response of `cnpj_requestv2.py` (v2). -/
def process_api_responseV2 (cnpj : String) (api_data : Option ApiData) :
    List Record :=
  if apiInvalid api_data then
    [[("cnpj", cnpj), ("nome_qsa", "N/A")]]
  else
    let a := api_data.getD {}
    let socios_list := (a.qsa.getD []).map (qsaRecordV2 cnpj)
    if socios_list = [] then [[("cnpj", cnpj), ("nome_qsa", "N/A")]]
    else socios_list

/-- One simulated HTTP response seen by `query_receitaws_api`: a 200 with
parsed JSON body, a 429, another 4xx/5xx status (which
`raise_for_status` turns into a `RequestException`), or a transport-level
`RequestException` from `session.get`. -/
inductive HttpResponse where
  | ok (body : ApiData)
  | tooMany
  | httpError
  | transportError
deriving DecidableEq, Repr

/-- A response that does not deliver a payload. -/
def HttpResponse.isFailure : HttpResponse → Bool
  | .ok _ => false
  | .tooMany => true
  | .httpError => true
  | .transportError => true

/-- The retry loop body of `query_receitaws_api` (identical control flow in
both scripts).  `remaining` counts the loop iterations still available
(`remaining = MAX_API_RETRIES + 1 - attempt_number`), `callIdx` indexes the
HTTP calls made so far, `backoff` is `backoff_factor`.  The result pairs
the returned payload (`None` on exhaustion) with the list of `time.sleep`
durations performed, in order.  On a 429 the client sleeps
`backoff * 5`, doubles the factor and `continue`s (consuming the loop
iteration); on a request error it sleeps `backoff * 2` and doubles the
factor, except on the final attempt where it gives up at once. -/
def queryAux (endpoint : Nat → HttpResponse) :
    Nat → Nat → Nat → Option ApiData × List Nat
  | 0, _, _ => (none, [])
  | remaining + 1, callIdx, backoff =>
    match endpoint callIdx with
    | .ok body => (some body, [])
    | .tooMany =>
      let rest := queryAux endpoint remaining (callIdx + 1) (backoff * 2)
      (rest.1, backoff * 5 :: rest.2)
    | .httpError =>
      if remaining = 0 then (none, [])
      else
        let rest := queryAux endpoint remaining (callIdx + 1) (backoff * 2)
        (rest.1, backoff * 2 :: rest.2)
    | .transportError =>
      if remaining = 0 then (none, [])
      else
        let rest := queryAux endpoint remaining (callIdx + 1) (backoff * 2)
        (rest.1, backoff * 2 :: rest.2)

/-- Function query_receitaws_api run against a simulated endpoint:
`backoff_factor` starts at 1 and up to `MAX_API_RETRIES` loop iterations
run. -/
def query_receitaws_api (endpoint : Nat → HttpResponse) :
    Option ApiData × List Nat :=
  queryAux endpoint MAX_API_RETRIES 0 1

/-- Function extract_company_details of v2: company-level keys read with default
`'N/A'`. -/
def extract_company_details (api : ApiData) : Record :=
  [("nome_empresa", api.nome.getD "N/A"),
   ("situacao", api.situacao.getD "N/A"),
   ("cidade", api.municipio.getD "N/A"),
   ("estado", api.uf.getD "N/A"),
   ("telefone_receita", api.telefone.getD "N/A")]

/-- The one row v2 main appends for a single identifier:
`{**detalhes, 'cnpj': cnpj, 'dono': dono, 'telefone_site': telefone_site}`
where `dono` joins the partner names with `'/'` and `telefone_site` comes
from the external Google lookup, modelled as an oracle `phoneLookup`. -/
def detailRow (phoneLookup : String → String) (cnpj : String)
    (api_data : Option ApiData) : Record :=
  let detalhes :=
    extract_company_details (if apiFalsy api_data then {} else api_data.getD {})
  let socios := process_api_responseV2 cnpj api_data
  let nomes_socios := socios.map (fun s => (s.lookup "nome_qsa").getD "")
  let dono := String.intercalate "/" nomes_socios
  let telefone_site := phoneLookup ((detalhes.lookup "nome_empresa").getD "")
  detalhes ++ [("cnpj", cnpj), ("dono", dono), ("telefone_site", telefone_site)]

/-- The detailed_results list accumulated by v2 `main` over the whole
batch; `fetch` abstracts `query_receitaws_api` as an oracle from
identifier to payload. -/
def mainV2Rows (phoneLookup : String → String)
    (fetch : String → Option ApiData) (cnpjs : List String) : List Record :=
  cnpjs.map (fun cnpj => detailRow phoneLookup cnpj (fetch cnpj))

/-- The all_qsa_results list accumulated by v1 `main`: the concatenation
of the normalizer's records over the identifier list, in order. -/
def mainV1Rows (fetch : String → Option ApiData) (cnpjs : List String) :
    List Record :=
  (cnpjs.map (fun cnpj => process_api_response cnpj (fetch cnpj))).flatten

/-- Constant csv_field_names of v1 `main`: the fixed CSV header. -/
def csv_field_names : List String := ["cnpj", "nome_qsa", "qualificacao_qsa"]

/-- The distinct identifier values carried by the `cnpj` field of a list of
output records. -/
def outputCnpjs (rows : List Record) : List String :=
  (rows.filterMap (List.lookup "cnpj")).dedup

/-- The number of input lines that are non-empty after stripping (v1's
loading condition). -/
def nonEmptyLineCount (lines : List String) : Nat :=
  (lines.filter (fun l => pyStrip l != "")).length

/-- A sample partner entry whose name is whitespace-only, as in the spec's
example payload. -/
def samplePartner : Partner := { nome := some "  ", qual := some "Owner" }

/-- A sample valid payload holding exactly the one sample partner. -/
def sampleQsaData : ApiData :=
  { status := some "OK", qsa := some [samplePartner] }

/-! ### Helper lemmas -/

/-- A successful HTTP response is returned at once: the loop performs no
sleep and makes no further call. -/
theorem queryAux_ok (ep : Nat → HttpResponse) (a : ApiData) (n cI b : Nat)
    (h : ep cI = .ok a) : queryAux ep (n + 1) cI b = (some a, []) := by
  simp [queryAux, h]

/-- A 429 response sleeps `backoff * 5`, doubles the factor and moves on to
the next loop iteration, consuming one unit of the attempt budget. -/
theorem queryAux_tooMany (ep : Nat → HttpResponse) (n cI b : Nat)
    (h : ep cI = .tooMany) :
    queryAux ep (n + 1) cI b =
      ((queryAux ep n (cI + 1) (b * 2)).1,
        b * 5 :: (queryAux ep n (cI + 1) (b * 2)).2) := by
  simp [queryAux, h]

/-- If every call the loop can still make fails, the loop returns `none`. -/
theorem queryAux_all_failures (ep : Nat → HttpResponse) :
    ∀ (n cI b : Nat), (∀ i, i < n → (ep (cI + i)).isFailure = true) →
      (queryAux ep n cI b).1 = none := by
  intro n
  induction n with
  | zero => intro cI b _; rfl
  | succ m ih =>
    intro cI b h
    have h0 : (ep cI).isFailure = true := by simpa using h 0 (Nat.succ_pos m)
    have hrest : ∀ i, i < m → (ep (cI + 1 + i)).isFailure = true := by
      intro i hi
      have := h (i + 1) (Nat.succ_lt_succ hi)
      simpa [Nat.add_assoc, Nat.add_comm 1 i] using this
    rcases he : ep cI with a | _ | _ | _
    · rw [he] at h0; simp [HttpResponse.isFailure] at h0
    · simp [queryAux, he, ih (cI + 1) (b * 2) hrest]
    · by_cases hm : m = 0
      · subst hm; simp [queryAux, he]
      · simp [queryAux, he, hm, ih (cI + 1) (b * 2) hrest]
    · by_cases hm : m = 0
      · subst hm; simp [queryAux, he]
      · simp [queryAux, he, hm, ih (cI + 1) (b * 2) hrest]

/-- The v1 normalizer never returns an empty record list. -/
theorem process_api_response_ne_nil (c : String) (d : Option ApiData) :
    process_api_response c d ≠ [] := by
  simp only [process_api_response]
  split
  · simp
  · split
    · next h => simpa [List.map_eq_nil_iff] using h
    · simp

/-- The v2 normalizer never returns an empty record list. -/
theorem process_api_responseV2_ne_nil (c : String) (d : Option ApiData) :
    process_api_responseV2 c d ≠ [] := by
  simp only [process_api_responseV2]
  split
  · simp
  · split
    · simp
    · next h => exact h

/-- Every record the v1 normalizer returns has exactly the keys of the CSV
header, in order, and carries the identifier in its `cnpj` field. -/
theorem process_api_response_record (c : String) (d : Option ApiData)
    (r : Record) (hr : r ∈ process_api_response c d) :
    r.map Prod.fst = csv_field_names ∧ r.lookup "cnpj" = some c := by
  simp only [process_api_response] at hr
  split at hr
  · simp only [List.mem_singleton] at hr
    subst hr
    constructor <;> simp [csv_field_names, List.lookup]
  · split at hr
    · simp only [List.mem_map] at hr
      obtain ⟨p, _, rfl⟩ := hr
      constructor <;> simp [qsaRecordV1, csv_field_names, List.lookup]
    · simp only [List.mem_singleton] at hr
      subst hr
      constructor <;> simp [csv_field_names, List.lookup]

/-! ### Claim theorems -/

/-- C1, counterexample: the claim says a 429 does not consume a slot of the
retry counter, so against an endpoint answering 429 on its first five calls
and succeeding on the sixth the client would still reach the success.  In
the code the `continue` advances the loop counter: after five 429 responses
(sleeping 5, 10, 20, 40, 80) the attempt budget is exhausted and the client
returns no payload, never making the sixth call. -/
theorem c1_counterexample :
    query_receitaws_api
        (fun i => if i < 5 then HttpResponse.tooMany
                  else HttpResponse.ok { status := some "OK" }) =
      (none, [5, 10, 20, 40, 80]) := by decide

/-- C1, amended: on a 429 the client sleeps `backoff * 5`, doubles the
shared backoff factor and proceeds to the next loop iteration — the 429
does consume one slot of the attempt budget.  For a simulated endpoint
returning 429 twice and then succeeding, the successive waits are 5 and 10
(strictly increasing) and the successful payload is returned on the third
attempt with no further waits. -/
theorem c1_rate_limit_backoff (d : ApiData) (ep : Nat → HttpResponse)
    (rem cI b : Nat) (h : ep cI = HttpResponse.tooMany) :
    queryAux ep (rem + 1) cI b =
      ((queryAux ep rem (cI + 1) (b * 2)).1,
        b * 5 :: (queryAux ep rem (cI + 1) (b * 2)).2) ∧
    query_receitaws_api
        (fun i => if i < 2 then HttpResponse.tooMany else HttpResponse.ok d) =
      (some d, [5, 10]) ∧
    List.Chain' (· < ·)
      (query_receitaws_api
        (fun i => if i < 2 then HttpResponse.tooMany else HttpResponse.ok d)).2 := by
  have h2 : query_receitaws_api
      (fun i => if i < 2 then HttpResponse.tooMany else HttpResponse.ok d) =
      (some d, [5, 10]) := rfl
  refine ⟨queryAux_tooMany ep rem cI b h, h2, ?_⟩
  rw [h2]
  show List.Chain' (· < ·) [5, 10]
  simp [List.chain'_cons, List.chain'_singleton]

/-- C1, witness for the amended theorem at a concrete endpoint. -/
theorem c1_witness :
    ((fun _ : Nat => HttpResponse.tooMany) 0 = HttpResponse.tooMany) ∧
    (queryAux (fun _ => HttpResponse.tooMany) (0 + 1) 0 1 =
      ((queryAux (fun _ => HttpResponse.tooMany) 0 (0 + 1) (1 * 2)).1,
        1 * 5 :: (queryAux (fun _ => HttpResponse.tooMany) 0 (0 + 1) (1 * 2)).2) ∧
    query_receitaws_api
        (fun i => if i < 2 then HttpResponse.tooMany
                  else HttpResponse.ok { status := some "OK" }) =
      (some { status := some "OK" }, [5, 10]) ∧
    List.Chain' (· < ·)
      (query_receitaws_api
        (fun i => if i < 2 then HttpResponse.tooMany
                  else HttpResponse.ok { status := some "OK" })).2) :=
  ⟨rfl, c1_rate_limit_backoff { status := some "OK" }
    (fun _ => HttpResponse.tooMany) 0 0 1 rfl⟩

/-- C2: for every identifier and every optional payload, both normalizer
variants return at least one record, so no identifier is silently
dropped. -/
theorem c2_normalizer_nonempty (c : String) (d : Option ApiData) :
    1 ≤ (process_api_response c d).length ∧
    1 ≤ (process_api_responseV2 c d).length :=
  ⟨List.length_pos.mpr (process_api_response_ne_nil c d),
   List.length_pos.mpr (process_api_responseV2_ne_nil c d)⟩

/-- C4: for an absent payload or a payload whose status marker is the error
marker, each normalizer variant produces exactly one record for the
identifier with every extractable field equal to the placeholder; and the
client returns the first successful HTTP body at once (no sleep, no retry),
so an API-reported error status inside a 200 body is never retried. -/
theorem c4_error_placeholder_no_retry (c : String) (d : Option ApiData)
    (ep : Nat → HttpResponse) (a : ApiData)
    (h : apiInvalid d = true) (hep : ep 0 = HttpResponse.ok a) :
    process_api_response c d =
      [[("cnpj", c), ("nome_qsa", "N/A"), ("qualificacao_qsa", "N/A")]] ∧
    process_api_responseV2 c d = [[("cnpj", c), ("nome_qsa", "N/A")]] ∧
    query_receitaws_api ep = (some a, []) := by
  refine ⟨by simp [process_api_response, h], by simp [process_api_responseV2, h], ?_⟩
  exact queryAux_ok ep a 4 0 1 hep

/-- C4, witness: an error-status payload and an endpoint whose first call
succeeds with that payload. -/
theorem c4_witness :
    apiInvalid (some { status := some "ERROR" }) = true ∧
    ((fun _ : Nat => HttpResponse.ok { status := some "ERROR" }) 0 =
      HttpResponse.ok { status := some "ERROR" }) ∧
    (process_api_response "00000000000000" (some { status := some "ERROR" }) =
      [[("cnpj", "00000000000000"), ("nome_qsa", "N/A"),
        ("qualificacao_qsa", "N/A")]] ∧
    process_api_responseV2 "00000000000000" (some { status := some "ERROR" }) =
      [[("cnpj", "00000000000000"), ("nome_qsa", "N/A")]] ∧
    query_receitaws_api (fun _ => HttpResponse.ok { status := some "ERROR" }) =
      (some { status := some "ERROR" }, [])) :=
  ⟨by decide, rfl,
    c4_error_placeholder_no_retry "00000000000000"
      (some { status := some "ERROR" })
      (fun _ => HttpResponse.ok { status := some "ERROR" })
      { status := some "ERROR" } (by decide) rfl⟩

/-- C8: the v2 driver appends exactly one output row per identifier, and
the `dono` field of that row joins the partner names produced by the
normalizer with a slash. -/
theorem c8_one_row_per_identifier (pl : String → String)
    (fetch : String → Option ApiData) (cnpjs : List String)
    (c : String) (d : Option ApiData) :
    (mainV2Rows pl fetch cnpjs).length = cnpjs.length ∧
    (detailRow pl c d).lookup "dono" =
      some (String.intercalate "/"
        ((process_api_responseV2 c d).map
          (fun s => (s.lookup "nome_qsa").getD ""))) := by
  refine ⟨by simp [mainV2Rows], ?_⟩
  rfl

/-- C10: every record the v1 normalizer returns, in all three branches, has
exactly the field set of the writer's fixed column header, in order, and
its `cnpj` field equals the identifier the normalizer was invoked with. -/
theorem c10_v1_record_fields (c : String) (d : Option ApiData) (r : Record)
    (hr : r ∈ process_api_response c d) :
    r.map Prod.fst = csv_field_names ∧ r.lookup "cnpj" = some c :=
  process_api_response_record c d r hr

/-- C10, witness: the placeholder record of an absent payload. -/
theorem c10_witness :
    ([("cnpj", "00000000000000"), ("nome_qsa", "N/A"),
        ("qualificacao_qsa", "N/A")] : Record) ∈
      process_api_response "00000000000000" none ∧
    (([("cnpj", "00000000000000"), ("nome_qsa", "N/A"),
        ("qualificacao_qsa", "N/A")] : Record).map Prod.fst = csv_field_names ∧
      ([("cnpj", "00000000000000"), ("nome_qsa", "N/A"),
        ("qualificacao_qsa", "N/A")] : Record).lookup "cnpj" =
        some "00000000000000") :=
  ⟨by decide, c10_v1_record_fields "00000000000000" none _ (by decide)⟩

/-- Zero-padding never shortens: the result has width `max w (length s)`. -/
theorem zfill_length (s : String) (w : Nat) :
    (zfill s w).length = max w s.length := by
  simp only [zfill, String.length]
  simp [List.length_append, List.length_replicate]
  omega

/-- Zero-padding a digit string yields a digit string. -/
theorem zfill_all_digits (s : String) (w : Nat)
    (h : s.data.all Char.isDigit = true) :
    (zfill s w).data.all Char.isDigit = true := by
  simp only [zfill, List.all_append, Bool.and_eq_true]
  refine ⟨?_, h⟩
  simp [List.all_eq_true]

/-- Removing non-digits leaves only digits. -/
theorem stripNonDigits_all_digits (s : String) :
    (stripNonDigits s).data.all Char.isDigit = true := by
  simp only [stripNonDigits, List.all_eq_true]
  intro c hc
  exact (List.mem_filter.mp hc).2

/-- C3, counterexample: the loaders pad but never truncate, so a raw line
holding fifteen digit characters produces a fifteen-character identifier,
refuting the claim that every produced identifier is exactly 14 characters
long. -/
theorem c3_counterexample :
    load_and_clean_cnpjs ["123456789012345"] = ["123456789012345"] ∧
    load_and_clean_cnpjsV2 ["123456789012345"] = ["123456789012345"] ∧
    ("123456789012345" : String).length = 15 := by decide

/-- C3, amended: every identifier either loader produces consists of digits
only and is at least 14 characters long; it is exactly 14 characters long
whenever its raw line carries at most 14 digit characters (the loader pads
with zeros on the left but never truncates). -/
theorem c3_loader_digits_padding (lines : List String) (c : String)
    (h1 : c ∈ load_and_clean_cnpjs lines ∨ c ∈ load_and_clean_cnpjsV2 lines) :
    c.data.all Char.isDigit = true ∧ 14 ≤ c.length ∧
    ∃ l, l ∈ lines ∧ c = zfill (stripNonDigits (pyStrip l)) 14 ∧
      ((stripNonDigits (pyStrip l)).length ≤ 14 → c.length = 14) := by
  have key : ∃ l, l ∈ lines ∧ c = zfill (stripNonDigits (pyStrip l)) 14 := by
    rcases h1 with h1 | h1
    · simp only [load_and_clean_cnpjs, List.mem_filterMap] at h1
      obtain ⟨l, hl, hfl⟩ := h1
      refine ⟨l, hl, ?_⟩
      split at hfl
      · exact absurd hfl (by simp)
      · simpa using hfl.symm
    · simp only [load_and_clean_cnpjsV2, List.mem_filterMap] at h1
      obtain ⟨l, hl, hfl⟩ := h1
      refine ⟨l, hl, ?_⟩
      split at hfl
      · exact absurd hfl (by simp)
      · simpa using hfl.symm
  obtain ⟨l, hl, hc⟩ := key
  subst hc
  refine ⟨zfill_all_digits _ _ (stripNonDigits_all_digits _), ?_, l, hl, rfl, ?_⟩
  · rw [zfill_length]; omega
  · intro hle
    rw [zfill_length]
    have : (stripNonDigits (pyStrip l)).length ≤ 14 := hle
    omega

/-- C3, witness at the spec's own example line. -/
theorem c3_witness :
    ("11222333000181" ∈ load_and_clean_cnpjs ["11.222.333/0001-81"] ∨
      "11222333000181" ∈ load_and_clean_cnpjsV2 ["11.222.333/0001-81"]) ∧
    (("11222333000181" : String).data.all Char.isDigit = true ∧
      14 ≤ ("11222333000181" : String).length ∧
      ∃ l, l ∈ ["11.222.333/0001-81"] ∧
        "11222333000181" = zfill (stripNonDigits (pyStrip l)) 14 ∧
        ((stripNonDigits (pyStrip l)).length ≤ 14 →
          ("11222333000181" : String).length = 14)) :=
  ⟨Or.inl (by decide),
    c3_loader_digits_padding ["11.222.333/0001-81"] "11222333000181"
      (Or.inl (by decide))⟩

/-- C5, counterexample: the claim says each per-partner record carries the
partner's name and role, but a v2 record carries only the name — at a valid
payload with one partner the produced record has no qualification field at
all (its key set is just `cnpj` and `nome_qsa`). -/
theorem c5_counterexample :
    process_api_responseV2 "00000000000000"
        (some { status := some "OK",
                qsa := some [{ nome := some "ALICE", qual := some "Owner" }] }) =
      [[("cnpj", "00000000000000"), ("nome_qsa", "ALICE")]] ∧
    ([("cnpj", "00000000000000"), ("nome_qsa", "ALICE")] : Record).lookup
        "qualificacao_qsa" = none := by decide

/-- C5, amended: for a valid payload with N partner entries (N ≥ 1) both
normalizer variants produce exactly N records, one per partner in payload
order; the v1 record carries the partner's name and role, each individually
replaced by the placeholder when blank or whitespace-only after trimming,
while the v2 record carries only the name with the same defaulting and has
no role field.  In particular a partner with name "  " and qualification
"Owner" yields name `N/A` and qualification `Owner` in v1. -/
theorem c5_partner_records (c : String) (a : ApiData) (ps : List Partner)
    (hv : apiInvalid (some a) = false) (hq : a.qsa = some ps)
    (hne : ps ≠ []) :
    process_api_response c (some a) = ps.map (qsaRecordV1 c) ∧
    process_api_responseV2 c (some a) = ps.map (qsaRecordV2 c) ∧
    (process_api_response c (some a)).length = ps.length ∧
    (process_api_responseV2 c (some a)).length = ps.length ∧
    qsaRecordV1 c { nome := some "  ", qual := some "Owner" } =
      [("cnpj", c), ("nome_qsa", "N/A"), ("qualificacao_qsa", "Owner")] := by
  have h1 : process_api_response c (some a) = ps.map (qsaRecordV1 c) := by
    simp [process_api_response, hv, hq, hne]
  have h2 : process_api_responseV2 c (some a) = ps.map (qsaRecordV2 c) := by
    simp only [process_api_responseV2, hv, Bool.false_eq_true, if_false,
      Option.getD_some, hq]
    rw [if_neg]
    simpa [List.map_eq_nil_iff] using hne
  have hs1 : pyStrip "  " = "" := by decide
  have hs2 : pyStrip "Owner" = "Owner" := by decide
  refine ⟨h1, h2, by simp [h1], by simp [h2], ?_⟩
  simp [qsaRecordV1, hs1, hs2]

/-- C5, witness at a concrete one-partner payload. -/
theorem c5_witness :
    apiInvalid (some sampleQsaData) = false ∧
    sampleQsaData.qsa = some [samplePartner] ∧
    ([samplePartner] : List Partner) ≠ [] ∧
    (process_api_response "00000000000000" (some sampleQsaData) =
        [samplePartner].map (qsaRecordV1 "00000000000000") ∧
      process_api_responseV2 "00000000000000" (some sampleQsaData) =
        [samplePartner].map (qsaRecordV2 "00000000000000") ∧
      (process_api_response "00000000000000" (some sampleQsaData)).length =
        ([samplePartner] : List Partner).length ∧
      (process_api_responseV2 "00000000000000" (some sampleQsaData)).length =
        ([samplePartner] : List Partner).length ∧
      qsaRecordV1 "00000000000000" { nome := some "  ", qual := some "Owner" } =
        [("cnpj", "00000000000000"), ("nome_qsa", "N/A"),
          ("qualificacao_qsa", "Owner")]) :=
  ⟨by decide, by decide, by decide,
    c5_partner_records "00000000000000" sampleQsaData [samplePartner]
      (by decide) (by decide) (by decide)⟩

/-- C6: if every one of the five simulated calls fails, the client returns
an absent payload (never an unhandled error, since the loop handles every
failure case), and the caller's normalizer turns that absent payload into
exactly one placeholder record for the identifier instead of aborting the
batch. -/
theorem c6_exhausted_retries (ep : Nat → HttpResponse) (c : String)
    (h : ∀ i, i < MAX_API_RETRIES → (ep i).isFailure = true) :
    (query_receitaws_api ep).1 = none ∧
    process_api_response c none =
      [[("cnpj", c), ("nome_qsa", "N/A"), ("qualificacao_qsa", "N/A")]] := by
  refine ⟨?_, by simp [process_api_response, apiInvalid, apiFalsy]⟩
  exact queryAux_all_failures ep MAX_API_RETRIES 0 1 (by simpa using h)

/-- C6, witness: an endpoint failing on every call. -/
theorem c6_witness :
    (∀ i, i < MAX_API_RETRIES →
      ((fun _ : Nat => HttpResponse.transportError) i).isFailure = true) ∧
    ((query_receitaws_api (fun _ => HttpResponse.transportError)).1 = none ∧
    process_api_response "00000000000001" none =
      [[("cnpj", "00000000000001"), ("nome_qsa", "N/A"),
        ("qualificacao_qsa", "N/A")]]) :=
  ⟨by decide, c6_exhausted_retries (fun _ => HttpResponse.transportError)
    "00000000000001" (by decide)⟩

/-- C7, counterexample: two input lines that normalize to the same
identifier are two non-empty lines but only one distinct identifier in the
output, so the count of distinct identifiers represented in the output is
smaller than the count of non-empty input lines. -/
theorem c7_counterexample :
    (outputCnpjs (mainV1Rows (fun _ => none)
        (load_and_clean_cnpjs ["1", "1"]))).length = 1 ∧
    nonEmptyLineCount ["1", "1"] = 2 := by decide

/-- C7, amended: in v1 the number of identifiers the loader produces,
counted with multiplicity, equals the number of lines that are non-empty
after stripping, and every loaded identifier is carried by at least one
output record of the batch; the count of distinct identifiers can be lower
when two lines normalize to the same identifier (and the v2 loader
additionally skips non-empty lines that contain no digit). -/
theorem c7_loader_counts (lines : List String)
    (fetch : String → Option ApiData) (c : String)
    (hc : c ∈ load_and_clean_cnpjs lines) :
    (load_and_clean_cnpjs lines).length = nonEmptyLineCount lines ∧
    ∃ r, r ∈ mainV1Rows fetch (load_and_clean_cnpjs lines) ∧
      r.lookup "cnpj" = some c := by
  constructor
  · clear hc
    induction lines with
    | nil => rfl
    | cons l t ih =>
      by_cases h : pyStrip l = ""
      · simpa [load_and_clean_cnpjs, nonEmptyLineCount, List.filterMap_cons,
          List.filter_cons, h] using ih
      · simpa [load_and_clean_cnpjs, nonEmptyLineCount, List.filterMap_cons,
          List.filter_cons, h] using ih
  · have hne := process_api_response_ne_nil c (fetch c)
    obtain ⟨r, hr⟩ := List.exists_mem_of_ne_nil _ hne
    refine ⟨r, ?_, (process_api_response_record c (fetch c) r hr).2⟩
    simp only [mainV1Rows, List.mem_flatten, List.mem_map]
    exact ⟨process_api_response c (fetch c), ⟨c, hc, rfl⟩, hr⟩

/-- C7, witness at a one-line input file. -/
theorem c7_witness :
    "00000000000001" ∈ load_and_clean_cnpjs ["1"] ∧
    ((load_and_clean_cnpjs ["1"]).length = nonEmptyLineCount ["1"] ∧
    ∃ r, r ∈ mainV1Rows (fun _ => none) (load_and_clean_cnpjs ["1"]) ∧
      r.lookup "cnpj" = some "00000000000001") :=
  ⟨by decide, c7_loader_counts ["1"] (fun _ => none) "00000000000001"
    (by decide)⟩

/-- C9, counterexample: on a non-empty line with no digit character the two
loaders disagree — v1 emits the all-zero identifier while v2 drops the
line. -/
theorem c9_counterexample :
    load_and_clean_cnpjs ["abc"] = ["00000000000000"] ∧
    load_and_clean_cnpjsV2 ["abc"] = [] := by decide

/-- C9, amended: the two loaders return the same ordered identifier list on
every file whose non-blank lines each contain at least one digit character;
they disagree exactly on non-blank digit-free lines, where v1 emits
fourteen zeros and v2 emits nothing. -/
theorem c9_loaders_agree (lines : List String)
    (h : ∀ l, l ∈ lines → pyStrip l ≠ "" → stripNonDigits (pyStrip l) ≠ "") :
    load_and_clean_cnpjs lines = load_and_clean_cnpjsV2 lines := by
  induction lines with
  | nil => rfl
  | cons x t ih =>
    have ht := ih (fun l hl => h l (List.mem_cons_of_mem _ hl))
    by_cases hx : pyStrip x = ""
    · have hx2 : stripNonDigits (pyStrip x) = "" := by
        rw [hx]; rfl
      simpa [load_and_clean_cnpjs, load_and_clean_cnpjsV2,
        List.filterMap_cons, hx, hx2] using ht
    · have hd := h x (List.mem_cons_self x t) hx
      simpa [load_and_clean_cnpjs, load_and_clean_cnpjsV2,
        List.filterMap_cons, hx, hd] using ht

/-- C9, witness: a file with one punctuated numeric line and one blank
line. -/
theorem c9_witness :
    (∀ l, l ∈ (["12.3", "   "] : List String) → pyStrip l ≠ "" →
      stripNonDigits (pyStrip l) ≠ "") ∧
    load_and_clean_cnpjs ["12.3", "   "] =
      load_and_clean_cnpjsV2 ["12.3", "   "] :=
  ⟨by decide, c9_loaders_agree ["12.3", "   "] (by decide)⟩
